import Mathlib

/-!
Shallow embedding of the SpiFlashUtils GPIO-reclaim engine
(`src/ModeDIO_ReclaimGPIOs.cpp`, `src/TestFlashQE/WP_HOLD_Test.cpp`,
`src/SfdpRevInfo.cpp`).

The flash device and the host-side register-access adapter are modelled as an
explicit state (`Device`), and every adapter operation additionally records an
`Event` in a trace, so that ordering and frame properties ("no register write
was issued", "pin mode was never changed") can be stated about a run.

Registers hold `Nat` values kept below 256 by the write operations (`% 256`).
The statements quantifying over initial states either need no bound or carry
an explicit `< 256` hypothesis.
-/

namespace SpiFlashUtils

/-- Result code of a low-level SPI operation (`SPI_RESULT_OK` / error). -/
inductive SpiOpResult
  | ok
  | error
deriving DecidableEq, Repr

/-- Host pin modes used by the sources (`INPUT`, `OUTPUT`, `SPECIAL`). -/
inductive PinMode
  | input
  | output
  | special
deriving DecidableEq, Repr

/-- One observable action of a run: adapter queries, register accesses,
write-enable-latch clears (`spi0_flash_write_disable`), and host pin
operations (`pinMode` / `digitalWrite`). -/
inductive Event
  | readId
  | queryWEL (res : Bool)
  | latchClear
  | queryQuadMode (res : Bool)
  | readSR (idx : Nat)
  | writeSR (idx : Nat) (value : Nat) (nonVolatile : Bool) (width : Nat)
  | pinModeSet (pin : Nat) (mode : PinMode)
  | digitalWrite (pin : Nat) (level : Bool)
deriving DecidableEq, Repr

/-- The flash device plus its behavioral quirks, as seen through the
register-access adapter.  `accept16` models whether the part honors the
legacy 16-bit combined SR1+SR2 write (devices that reject it leave the
registers unchanged and the write-enable latch set, the silent failure
mode described in the sources).  `clearSR3onSR2Write` models the XMC
anomaly where a write to SR2 erases SR3. -/
structure Device where
  sr1 : Nat
  sr2 : Nat
  sr3 : Nat
  wel : Bool
  quadMode : Bool
  flashId : Nat
  accept16 : Bool
  clearSR3onSR2Write : Bool
deriving DecidableEq, Repr

/-- `alt_spi_flash_get_id()`: identification query usable before SDK init. -/
def alt_spi_flash_get_id (d : Device) : Nat := d.flashId

/-- `is_WEL()`: adapter query of the write-enable latch. -/
def is_WEL (d : Device) : Bool := d.wel

/-- `is_spi0_quad()`: adapter query of the SPI0 quad transfer mode. -/
def is_spi0_quad (d : Device) : Bool := d.quadMode

/-- `spi0_flash_write_disable()`: clears the write-enable latch. -/
def spi0_flash_write_disable (d : Device) : Device × List Event :=
  ({ d with wel := false }, [Event.latchClear])

/-- `spi0_flash_read_status_register_1`. -/
def spi0_flash_read_status_register_1 (d : Device) : Nat × List Event :=
  (d.sr1, [Event.readSR 1])

/-- `spi0_flash_read_status_register_2`. -/
def spi0_flash_read_status_register_2 (d : Device) : Nat × List Event :=
  (d.sr2, [Event.readSR 2])

/-- `spi0_flash_read_status_register_3` (always succeeds in this model). -/
def spi0_flash_read_status_register_3 (d : Device) : SpiOpResult × Nat × List Event :=
  (SpiOpResult.ok, d.sr3, [Event.readSR 3])

/-- Register-state effect of `spi0_flash_write_status_register`:
a 16-bit write targets the combined SR1 (low byte) + SR2 (high byte)
register and is silently ignored (latch left set) when the device rejects
the legacy opcode; an 8-bit write targets SR1 (`regIdx = 0`) or SR2
(`regIdx = 1`); a write to SR2 erases SR3 on parts with that anomaly. -/
def writeSRDevice (regIdx value width : Nat) (d : Device) : Device :=
  if width = 16 then
    if d.accept16 then
      { d with sr1 := value % 256, sr2 := value / 256 % 256, wel := false }
    else
      { d with wel := true }
  else if regIdx = 0 then
    { d with sr1 := value % 256, wel := false }
  else
    { d with sr2 := value % 256,
             sr3 := if d.clearSR3onSR2Write then 0 else d.sr3,
             wel := false }

/-- `spi0_flash_write_status_register(regIdx, value, non_volatile, width)`.
Silent failures (rejected widths) still return OK; only read-back detects
them, as the sources describe. -/
def spi0_flash_write_status_register (regIdx value : Nat) (nonVolatile : Bool)
    (width : Nat) (d : Device) : SpiOpResult × Device × List Event :=
  (SpiOpResult.ok, writeSRDevice regIdx value width d,
    [Event.writeSR regIdx value nonVolatile width])

/-- `spi0_flash_write_status_register_3(value, non_volatile)`. -/
def spi0_flash_write_status_register_3 (value : Nat) (nonVolatile : Bool)
    (d : Device) : SpiOpResult × Device × List Event :=
  (SpiOpResult.ok, { d with sr3 := value % 256, wel := false },
    [Event.writeSR 3 value nonVolatile 8])

/-- `volatile_bit`: request a volatile status-register write. -/
def volatile_bit : Bool := false

/-- `non_volatile_bit`: request a non-volatile status-register write. -/
def non_volatile_bit : Bool := true

/-- Modelled from the spec: `set_QE_bit__16_bit_sr1_write` lives in
`SpiFlashUtils.h`, which is not under `src/`.  Per spec section 4.3: clear the
write-enable latch defensively, read the registers for the bit position (QE is
S9, bit 1 of SR2), report success without writing when the bit is already set,
otherwise write the combined 16-bit value (SR1 in the low byte, SR2 in the high
byte, the layout used by `test_set_QE` in `WP_HOLD_Test.cpp`), then re-read and
report success only if the target bit reads back set. -/
def set_QE_bit__16_bit_sr1_write (nonVolatile : Bool) (d : Device) :
    Bool × Device × List Event :=
  let d0 : Device := { d with wel := false }
  if Nat.testBit d0.sr2 1 then
    (true, d0, [Event.latchClear, Event.readSR 2])
  else
    let v := d0.sr1 ||| ((d0.sr2 ||| 2) <<< 8)
    let w := spi0_flash_write_status_register 0 v nonVolatile 16 d0
    (Nat.testBit w.2.1.sr2 1, w.2.1,
      [Event.latchClear, Event.readSR 2, Event.readSR 1] ++ w.2.2 ++ [Event.readSR 2])

/-- Modelled from the spec: `set_QE_bit__8_bit_sr2_write` lives in
`SpiFlashUtils.h`, which is not under `src/`.  Per spec section 4.3: clear the
latch defensively, read SR2, skip the write when bit 1 (QE/S9) is already set,
otherwise write SR2 with bit 1 set using the bare 8-bit SR2 opcode, re-read
and report whether the bit sticks. -/
def set_QE_bit__8_bit_sr2_write (nonVolatile : Bool) (d : Device) :
    Bool × Device × List Event :=
  let d0 : Device := { d with wel := false }
  if Nat.testBit d0.sr2 1 then
    (true, d0, [Event.latchClear, Event.readSR 2])
  else
    let w := spi0_flash_write_status_register 1 (d0.sr2 ||| 2) nonVolatile 8 d0
    (Nat.testBit w.2.1.sr2 1, w.2.1,
      [Event.latchClear, Event.readSR 2] ++ w.2.2 ++ [Event.readSR 2])

/-- Modelled from the spec: `set_S6_QE_WPDis_bit` lives in `SpiFlashUtils.h`,
which is not under `src/`.  Per spec sections 4.2-4.3: the S6 families use
bit 6 of SR1 as QE or WPDis; clear the latch defensively, read SR1, skip the
write when bit 6 is already set, otherwise write SR1 with bit 6 set using the
8-bit opcode, re-read and verify. -/
def set_S6_QE_WPDis_bit (nonVolatile : Bool) (d : Device) :
    Bool × Device × List Event :=
  let d0 : Device := { d with wel := false }
  if Nat.testBit d0.sr1 6 then
    (true, d0, [Event.latchClear, Event.readSR 1])
  else
    let w := spi0_flash_write_status_register 0 (d0.sr1 ||| 64) nonVolatile 8 d0
    (Nat.testBit w.2.1.sr1 6, w.2.1,
      [Event.latchClear, Event.readSR 1] ++ w.2.2 ++ [Event.readSR 1])

/-- `SPI_FLASH_VENDOR_GIGADEVICE` (JEDEC manufacturer byte). -/
def SPI_FLASH_VENDOR_GIGADEVICE : Nat := 0xC8

/-- `SPI_FLASH_VENDOR_MYSTERY_D8`. -/
def SPI_FLASH_VENDOR_MYSTERY_D8 : Nat := 0xD8

/-- `SPI_FLASH_VENDOR_XMC`. -/
def SPI_FLASH_VENDOR_XMC : Nat := 0x20

/-- `SPI_FLASH_VENDOR_PMC` (aka ISSI). -/
def SPI_FLASH_VENDOR_PMC : Nat := 0x9D

/-- `SPI_FLASH_VENDOR_MACRONIX`. -/
def SPI_FLASH_VENDOR_MACRONIX : Nat := 0xC2

/-- `SPI_FLASH_VENDOR_EON`. -/
def SPI_FLASH_VENDOR_EON : Nat := 0x1C

/-- `__spi_flash_vendor_cases(_id)` from `ModeDIO_ReclaimGPIOs.cpp` with all
`BUILTIN_SUPPORT_*` options at their defaults (all enabled).  The switch on
`0xFF & _id` dispatches to a vendor strategy; the default case attempts the
16-bit combined write first and falls back to the 8-bit SR2 write when the
write-back verification fails. -/
def __spi_flash_vendor_cases (_id : Nat) (d : Device) : Bool × Device × List Event :=
  let vendor := 0xFF &&& _id
  if vendor = SPI_FLASH_VENDOR_GIGADEVICE then
    set_QE_bit__8_bit_sr2_write volatile_bit d
  else if vendor = SPI_FLASH_VENDOR_MYSTERY_D8 then
    set_QE_bit__8_bit_sr2_write volatile_bit d
  else if vendor = SPI_FLASH_VENDOR_XMC then
    -- Backup Status Register-3 around the SR2 write (XMC anomaly).
    let r3 := spi0_flash_read_status_register_3 d
    let a := set_QE_bit__8_bit_sr2_write volatile_bit d
    let w3 := spi0_flash_write_status_register_3 r3.2.1 volatile_bit a.2.1
    (a.1, w3.2.1, r3.2.2 ++ a.2.2 ++ w3.2.2)
  else if vendor = SPI_FLASH_VENDOR_PMC then
    set_S6_QE_WPDis_bit non_volatile_bit d
  else if vendor = SPI_FLASH_VENDOR_MACRONIX then
    set_S6_QE_WPDis_bit non_volatile_bit d
  else if vendor = SPI_FLASH_VENDOR_EON then
    if 0x301C = (_id &&& 0xFFFF) then
      set_S6_QE_WPDis_bit volatile_bit d
    else
      -- let all others fail
      (false, d, [])
  else
    -- default: assume QE bit at S9; 16-bit combined write first,
    -- 8-bit SR2 write as the fallback
    let a16 := set_QE_bit__16_bit_sr1_write volatile_bit d
    if a16.1 then
      a16
    else
      let a8 := set_QE_bit__8_bit_sr2_write volatile_bit a16.2.1
      (a8.1, a8.2.1, a16.2.2 ++ a8.2.2)

/-- `spi_flash_vendor_cases` is a weak alias of `__spi_flash_vendor_cases`. -/
def spi_flash_vendor_cases (_id : Nat) (d : Device) : Bool × Device × List Event :=
  __spi_flash_vendor_cases _id d

/-- Events of the entry write-enable-latch recovery step of
`reclaim_GPIO_9_10`: the latch is queried and, when found set, cleared. -/
def welPhaseEvents (d : Device) : List Event :=
  if d.wel then [Event.queryWEL true, Event.latchClear]
  else [Event.queryWEL false]

/-- Device state after the entry latch-recovery step of `reclaim_GPIO_9_10`. -/
def afterWelPhase (d : Device) : Device :=
  if d.wel then { d with wel := false } else d

/-- `reclaim_GPIO_9_10()` from `ModeDIO_ReclaimGPIOs.cpp` (default build,
`RECLAIM_GPIO_EARLY`/`DEBUG_FLASH_QE` off): read the flash id, clear a stuck
write-enable latch if present, reject quad transfer mode, dispatch on the
vendor, unconditionally clear the latch again, and reassign GPIO9/GPIO10 as
inputs only on success. -/
def reclaim_GPIO_9_10 (d : Device) : Bool × Device × List Event :=
  let _id := alt_spi_flash_get_id d
  let d1 := afterWelPhase d
  let e1 := Event.readId :: welPhaseEvents d
  if is_spi0_quad d1 then
    (false, d1, e1 ++ [Event.queryQuadMode true])
  else
    let a := spi_flash_vendor_cases _id d1
    let d2 := { a.2.1 with wel := false }
    if a.1 then
      (true, d2,
        e1 ++ [Event.queryQuadMode false] ++ a.2.2 ++
          [Event.latchClear, Event.pinModeSet 9 PinMode.input,
           Event.pinModeSet 10 PinMode.input])
    else
      (false, d2, e1 ++ [Event.queryQuadMode false] ++ a.2.2 ++ [Event.latchClear])

/-- `test_set_QE(qe_pos, use_16_bit_sr1, _non_volatile, use_preset)` from
`TestFlashQE/WP_HOLD_Test.cpp`.  With `use_preset` it only reads and reports
the current QE bit; otherwise it sets the proposed QE bit (S9 via 16-bit
combined or 8-bit SR2 write, S6 via 8-bit SR1 write), skipping the write when
the bit is already set, and verifies by re-reading.  Returns 1/0 for the bit
value, -1 when `qe_pos` is neither 9 nor 6. -/
def test_set_QE (qe_pos : Nat) (use_16_bit_sr1 _non_volatile use_preset : Bool)
    (d : Device) : Int × Device × List Event :=
  let wd := spi0_flash_write_disable d
  let d0 := wd.1
  let e0 := wd.2
  if use_preset then
    if qe_pos = 9 then
      ((if Nat.testBit d0.sr2 1 then 1 else 0), d0, e0 ++ [Event.readSR 2])
    else if qe_pos = 6 then
      ((if Nat.testBit d0.sr1 6 then 1 else 0), d0, e0 ++ [Event.readSR 1])
    else
      (-1, d0, e0)
  else
    if qe_pos = 9 then
      if Nat.testBit d0.sr2 1 then
        (1, d0, e0 ++ [Event.readSR 2])
      else
        let sr2 := d0.sr2 ||| 2
        if use_16_bit_sr1 then
          let w := spi0_flash_write_status_register 0 (d0.sr1 ||| (sr2 <<< 8))
                     _non_volatile 16 d0
          ((if Nat.testBit w.2.1.sr2 1 then 1 else 0), w.2.1,
            e0 ++ [Event.readSR 2, Event.readSR 1] ++ w.2.2 ++ [Event.readSR 2])
        else
          let w := spi0_flash_write_status_register 1 sr2 _non_volatile 8 d0
          ((if Nat.testBit w.2.1.sr2 1 then 1 else 0), w.2.1,
            e0 ++ [Event.readSR 2] ++ w.2.2 ++ [Event.readSR 2])
    else if qe_pos = 6 then
      if Nat.testBit d0.sr1 6 then
        (1, d0, e0 ++ [Event.readSR 1])
      else
        let w := spi0_flash_write_status_register 0 (d0.sr1 ||| 64) _non_volatile 8 d0
        ((if Nat.testBit w.2.1.sr1 6 then 1 else 0), w.2.1,
          e0 ++ [Event.readSR 1] ++ w.2.2 ++ [Event.readSR 1])
    else
      (-1, d0, e0)

/-- `testOutputGPIO9(qe_pos, use_16_bit_sr1, _non_volatile, use_preset)` from
`TestFlashQE/WP_HOLD_Test.cpp`: the /HOLD exercise test.  Rejects an invalid
`qe_pos`; otherwise runs `test_set_QE`, drives GPIO9 low as an output,
restores it to SPECIAL, and returns true — surviving (no watchdog reset) is
the pass signal, independent of the `test_set_QE` result. -/
def testOutputGPIO9 (qe_pos : Nat) (use_16_bit_sr1 _non_volatile use_preset : Bool)
    (d : Device) : Bool × Device × List Event :=
  if ¬qe_pos = 9 ∧ ¬qe_pos = 6 ∧ ¬qe_pos = 0xFF then
    (false, d, [])
  else
    let t := test_set_QE qe_pos use_16_bit_sr1 _non_volatile use_preset d
    (true, t.2.1,
      t.2.2 ++ [Event.pinModeSet 9 PinMode.output, Event.digitalWrite 9 false,
                Event.pinModeSet 9 PinMode.special])

/-- SFDP header dword pair as read at address 0 (`SfdpHdr`). -/
structure SfdpHdr where
  signature : Nat
  rev_minor : Nat
  rev_major : Nat
  num_parm_hdrs : Nat
deriving DecidableEq, Repr

/-- First SFDP parameter header (`SfdpParam`). -/
structure SfdpParam where
  rev_minor : Nat
  rev_major : Nat
  sz_dw : Nat
  tbl_ptr : Nat
deriving DecidableEq, Repr

/-- Result record of `get_sfdp_revision` (`SfdpRevInfo`). -/
structure SfdpRevInfo where
  hdr_major : Nat
  hdr_minor : Nat
  num_parm_hdrs : Nat
  parm_major : Nat
  parm_minor : Nat
  sz_dw : Nat
  tbl_ptr : Nat
deriving DecidableEq, Repr

/-- The SFDP read capability surface consumed by `SfdpRevInfo.cpp`: the
outcome of each `spi0_flash_read_sfdp` call and of the heap allocation. -/
structure SfdpDevice where
  hdrReadOk : Bool
  hdr : SfdpHdr
  paramReadOk : Bool
  param : SfdpParam
  mallocOk : Bool
  tblReadOk : Bool
  tbl : List Nat
deriving DecidableEq, Repr

/-- The all-zero `SfdpRevInfo` produced by the `memset` in `SfdpRevInfo.cpp`. -/
def zeroSfdpRevInfo : SfdpRevInfo :=
  { hdr_major := 0, hdr_minor := 0, num_parm_hdrs := 0, parm_major := 0,
    parm_minor := 0, sz_dw := 0, tbl_ptr := 0 }

/-- `get_sfdp_revision()` from `SfdpRevInfo.cpp`: zero the record; when the
header read succeeds and the signature is `0x50444653`, fill the header
fields and, when the parameter-header read also succeeds, the parameter
fields; otherwise re-zero and return. -/
def get_sfdp_revision (dev : SfdpDevice) : SfdpRevInfo :=
  if dev.hdrReadOk ∧ dev.hdr.signature = 0x50444653 then
    let base := { zeroSfdpRevInfo with
      hdr_major := dev.hdr.rev_major,
      hdr_minor := dev.hdr.rev_minor,
      num_parm_hdrs := dev.hdr.num_parm_hdrs }
    if dev.paramReadOk then
      { base with
        parm_major := dev.param.rev_major,
        parm_minor := dev.param.rev_minor,
        sz_dw := dev.param.sz_dw,
        tbl_ptr := dev.param.tbl_ptr }
    else
      base
  else
    zeroSfdpRevInfo

/-- `get_sfdp_basic(rev)` from `SfdpRevInfo.cpp`.  `revArgNull` models passing
a null `rev` pointer; `none` models the null return.  Returns the parameter
table contents only when the table pointer is nonzero, the allocation
succeeds, and the table read succeeds. -/
def get_sfdp_basic (revArgNull : Bool) (dev : SfdpDevice) : Option (List Nat) :=
  if revArgNull then none
  else
    let rev := get_sfdp_revision dev
    if rev.tbl_ptr = 0 then none
    else if ¬dev.mallocOk = true then none
    else if dev.tblReadOk then some dev.tbl
    else none

/-- Is this event a status-register read? -/
def Event.isRegRead : Event → Bool
  | .readSR _ => true
  | _ => false

/-- Is this event a status-register write? -/
def Event.isRegWrite : Event → Bool
  | .writeSR _ _ _ _ => true
  | _ => false

/-- Is this event a write-enable-latch clear? -/
def Event.isLatchClear : Event → Bool
  | .latchClear => true
  | _ => false

/-- Is this event the quad-transfer-mode query? -/
def Event.isQuadQuery : Event → Bool
  | .queryQuadMode _ => true
  | _ => false

/-- Is this event a pin-mode change of GPIO9 or GPIO10? -/
def Event.isPinModeSet910 : Event → Bool
  | .pinModeSet p _ => p == 9 || p == 10
  | _ => false

/-- Every status-register write in this event stream targets SR1
(`regIdx = 0`) and requests non-volatile persistence. -/
def Event.writesOnlySR1NonVolatile : Event → Bool
  | .writeSR i _ nv _ => i == 0 && nv
  | _ => true

/-- The 8-bit SR2 strategy touches no GPIO pins. -/
lemma set_QE8_pin_free (nv : Bool) (d : Device) :
    ((set_QE_bit__8_bit_sr2_write nv d).2.2.all fun e => !e.isPinModeSet910) = true := by
  by_cases hb : Nat.testBit d.sr2 1 = true <;>
    simp [set_QE_bit__8_bit_sr2_write, hb, spi0_flash_write_status_register,
      Event.isPinModeSet910]

/-- The 16-bit combined strategy touches no GPIO pins. -/
lemma set_QE16_pin_free (nv : Bool) (d : Device) :
    ((set_QE_bit__16_bit_sr1_write nv d).2.2.all fun e => !e.isPinModeSet910) = true := by
  by_cases hb : Nat.testBit d.sr2 1 = true <;>
    simp [set_QE_bit__16_bit_sr1_write, hb, spi0_flash_write_status_register,
      Event.isPinModeSet910]

/-- The S6 strategy touches no GPIO pins. -/
lemma set_S6_pin_free (nv : Bool) (d : Device) :
    ((set_S6_QE_WPDis_bit nv d).2.2.all fun e => !e.isPinModeSet910) = true := by
  by_cases hb : Nat.testBit d.sr1 6 = true <;>
    simp [set_S6_QE_WPDis_bit, hb, spi0_flash_write_status_register,
      Event.isPinModeSet910]

/-- No vendor strategy run by the dispatch touches a GPIO pin. -/
lemma vendor_cases_pin_free (_id : Nat) (d : Device) :
    ((__spi_flash_vendor_cases _id d).2.2.all fun e => !e.isPinModeSet910) = true := by
  unfold __spi_flash_vendor_cases
  by_cases h1 : 0xFF &&& _id = SPI_FLASH_VENDOR_GIGADEVICE
  · rw [if_pos h1]; exact set_QE8_pin_free _ _
  rw [if_neg h1]
  by_cases h2 : 0xFF &&& _id = SPI_FLASH_VENDOR_MYSTERY_D8
  · rw [if_pos h2]; exact set_QE8_pin_free _ _
  rw [if_neg h2]
  by_cases h3 : 0xFF &&& _id = SPI_FLASH_VENDOR_XMC
  · rw [if_pos h3]
    have hq := set_QE8_pin_free volatile_bit d
    dsimp only [spi0_flash_read_status_register_3, spi0_flash_write_status_register_3]
    simp only [List.all_eq_true] at hq ⊢
    intro x hx
    simp only [List.mem_cons, List.mem_append, List.mem_singleton] at hx
    rcases hx with ((hx | hx) | hx) | hx | hx
    · subst hx; rfl
    · cases hx
    · exact hq x hx
    · subst hx; rfl
    · cases hx
  rw [if_neg h3]
  by_cases h4 : 0xFF &&& _id = SPI_FLASH_VENDOR_PMC
  · rw [if_pos h4]; exact set_S6_pin_free _ _
  rw [if_neg h4]
  by_cases h5 : 0xFF &&& _id = SPI_FLASH_VENDOR_MACRONIX
  · rw [if_pos h5]; exact set_S6_pin_free _ _
  rw [if_neg h5]
  by_cases h6 : 0xFF &&& _id = SPI_FLASH_VENDOR_EON
  · rw [if_pos h6]
    by_cases h7 : 0x301C = (_id &&& 0xFFFF)
    · rw [if_pos h7]; exact set_S6_pin_free _ _
    · rw [if_neg h7]; simp
  rw [if_neg h6]
  by_cases h8 : (set_QE_bit__16_bit_sr1_write volatile_bit d).1 = true
  · rw [if_pos h8]; exact set_QE16_pin_free _ _
  · rw [if_neg h8]
    simp [List.all_append, set_QE16_pin_free, set_QE8_pin_free]

/-- A pin-free event stream contains no `pinModeSet` for GPIO9/GPIO10, so it
counts zero occurrences of any such event. -/
lemma count_pinModeSet_eq_zero {l : List Event}
    (h : (l.all fun e => !e.isPinModeSet910) = true)
    {p : Nat} {m : PinMode} (hp : (Event.pinModeSet p m).isPinModeSet910 = true) :
    l.count (Event.pinModeSet p m) = 0 := by
  rw [List.count_eq_zero]
  intro hmem
  have hx := List.all_eq_true.mp h _ hmem
  rw [hp] at hx
  simp at hx

/-- The quad query inside `reclaim_GPIO_9_10` reads the mode of the device as
left by the latch-recovery step, which equals the entry mode. -/
lemma is_spi0_quad_afterWel (d : Device) :
    is_spi0_quad (afterWelPhase d) = d.quadMode := by
  by_cases hw : d.wel <;> simp [afterWelPhase, is_spi0_quad, hw]

/-- Shape of a `reclaim_GPIO_9_10` run that is stopped by the quad-mode
check: failure result, and a trace of only the id read, the latch-recovery
step and the quad query. -/
lemma reclaim_quad_shape (d : Device) (hq : d.quadMode = true) :
    reclaim_GPIO_9_10 d =
      (false, afterWelPhase d,
        Event.readId :: welPhaseEvents d ++ [Event.queryQuadMode true]) := by
  by_cases hw : d.wel <;>
    simp [reclaim_GPIO_9_10, afterWelPhase, welPhaseEvents, is_spi0_quad,
      alt_spi_flash_get_id, hw, hq]

/-- Shape of a `reclaim_GPIO_9_10` run that reaches vendor dispatch: the
dispatch verdict is the result, the final device has the latch cleared, and
the trace is id read, latch recovery, quad query, the dispatch events, the
unconditional latch clear, and the pin reassignments only on success. -/
lemma reclaim_dispatch_shape (d : Device) (hq : d.quadMode = false) :
    reclaim_GPIO_9_10 d =
      (let a := spi_flash_vendor_cases d.flashId (afterWelPhase d)
       (a.1, { a.2.1 with wel := false },
        Event.readId :: welPhaseEvents d ++ [Event.queryQuadMode false] ++ a.2.2 ++
          [Event.latchClear] ++
          (if a.1 then
            [Event.pinModeSet 9 PinMode.input, Event.pinModeSet 10 PinMode.input]
           else []))) := by
  by_cases hw : d.wel <;>
    by_cases ha : (spi_flash_vendor_cases d.flashId (afterWelPhase d)).1 = true <;>
    simp_all [reclaim_GPIO_9_10, afterWelPhase, welPhaseEvents, is_spi0_quad,
      alt_spi_flash_get_id]

/-- Setting bit 1 with an 8-bit or-write leaves bit 1 set after the
register's 8-bit truncation. -/
lemma testBit_lor_two_mod (x : Nat) : Nat.testBit ((x ||| 2) % 256) 1 = true := by
  have h : (256 : Nat) = 2 ^ 8 := by norm_num
  rw [h, Nat.testBit_mod_two_pow, Nat.testBit_lor]
  have h2 : Nat.testBit 2 1 = true := rfl
  simp [h2]

/-- A flash (vendor byte 0xFF, unmatched) that rejects the legacy 16-bit
combined write, all QE bits clear, not in quad mode. -/
def devDefaultReject : Device :=
  { sr1 := 0, sr2 := 0, sr3 := 7, wel := false, quadMode := false,
    flashId := 0xFF, accept16 := false, clearSR3onSR2Write := false }

/-- Same flash with the write-enable latch stuck set at entry. -/
def devWelSet : Device := { devDefaultReject with wel := true }

/-- Same flash currently configured for quad transfer mode. -/
def devQuadActive : Device := { devDefaultReject with quadMode := true, wel := true }

/-- A Macronix part (vendor byte 0xC2) with SR1 = 0. -/
def devMacronix : Device := { devDefaultReject with flashId := 0xC2 }

/-- An XMC part (vendor byte 0x20) showing the SR3-erasing anomaly, with a
nonzero driver-strength field in SR3. -/
def devXmc : Device :=
  { devDefaultReject with
    flashId := 0x20, accept16 := true,
    clearSR3onSR2Write := true, sr3 := 0x60 }

/-- Claim C2: if the quad transfer mode query reports quad mode active,
`reclaim_GPIO_9_10` returns failure without invoking any vendor strategy and
without issuing any status-register access (the trace holds no register read
or write; in particular no strategy ran). -/
theorem quad_mode_fails_without_register_access (d : Device)
    (h : d.quadMode = true) :
    (reclaim_GPIO_9_10 d).1 = false ∧
    ((reclaim_GPIO_9_10 d).2.2.all fun e => !e.isRegRead && !e.isRegWrite) = true := by
  by_cases hw : d.wel <;>
    simp [reclaim_GPIO_9_10, afterWelPhase, welPhaseEvents, is_spi0_quad,
      alt_spi_flash_get_id, hw, h, Event.isRegRead, Event.isRegWrite]

/-- Witness for C2 at a concrete quad-mode device. -/
theorem quad_mode_fails_without_register_access_witness :
    (reclaim_GPIO_9_10 devQuadActive).1 = false :=
  (quad_mode_fails_without_register_access devQuadActive (by decide)).1

/-- Counterexample to claim C3: on a device whose write-enable latch is set at
entry, the run's trace contains both a latch clear and the quad-mode query,
but the quad-mode query does NOT precede the latch clear — the orchestrator
performs latch recovery before the transfer-mode check. -/
theorem quad_check_not_before_latch_recovery :
    ((reclaim_GPIO_9_10 devWelSet).2.2.any Event.isLatchClear = true) ∧
    ((reclaim_GPIO_9_10 devWelSet).2.2.any Event.isQuadQuery = true) ∧
    ¬((reclaim_GPIO_9_10 devWelSet).2.2.findIdx Event.isQuadQuery <
      (reclaim_GPIO_9_10 devWelSet).2.2.findIdx Event.isLatchClear) := by
  decide

/-- Claim C3 (amended): on every run the orchestrator's complete trace is,
in order, Init (the id read), LatchRecovery (latch query and, when stuck,
clear), ModeCheck (the quad-mode query), then — only when the mode check
passes — VendorDispatch (exactly the dispatch events) and Finalize (the
unconditional latch clear, then the pin reassignment on success): the
latch-recovery step precedes the transfer-mode check, which precedes
vendor dispatch, which precedes finalization. -/
theorem latch_recovery_precedes_quad_check (d : Device) :
    (reclaim_GPIO_9_10 d).2.2 =
      Event.readId :: welPhaseEvents d ++ [Event.queryQuadMode d.quadMode] ++
        (if d.quadMode then []
         else
           (spi_flash_vendor_cases d.flashId (afterWelPhase d)).2.2 ++
             [Event.latchClear] ++
             (if (spi_flash_vendor_cases d.flashId (afterWelPhase d)).1 then
               [Event.pinModeSet 9 PinMode.input, Event.pinModeSet 10 PinMode.input]
              else [])) := by
  by_cases hq : d.quadMode
  · rw [reclaim_quad_shape d hq, hq]
    simp
  · rw [Bool.not_eq_true] at hq
    rw [reclaim_dispatch_shape d hq, hq]
    dsimp only
    simp

/-- Witness for the amended C3 at a concrete device with a stuck latch. -/
theorem latch_recovery_precedes_quad_check_witness :
    (reclaim_GPIO_9_10 devWelSet).2.2 =
      Event.readId :: welPhaseEvents devWelSet ++
        [Event.queryQuadMode devWelSet.quadMode] ++
        (if devWelSet.quadMode then []
         else
           (spi_flash_vendor_cases devWelSet.flashId (afterWelPhase devWelSet)).2.2 ++
             [Event.latchClear] ++
             (if (spi_flash_vendor_cases devWelSet.flashId (afterWelPhase devWelSet)).1 then
               [Event.pinModeSet 9 PinMode.input, Event.pinModeSet 10 PinMode.input]
              else [])) :=
  latch_recovery_precedes_quad_check devWelSet

/-- Membership form of `vendor_cases_pin_free` for the public alias. -/
lemma spi_vendor_cases_pin_free_mem (_id : Nat) (d : Device) :
    ∀ x ∈ (spi_flash_vendor_cases _id d).2.2, x.isPinModeSet910 = false := by
  have h := vendor_cases_pin_free _id d
  rw [List.all_eq_true] at h
  intro x hx
  have hb := h x hx
  simpa using hb

/-- The entry latch-recovery step touches no GPIO pins. -/
lemma welPhase_pin_free (d : Device) :
    ∀ x ∈ welPhaseEvents d, x.isPinModeSet910 = false := by
  by_cases hw : d.wel <;> simp [welPhaseEvents, hw, Event.isPinModeSet910]

/-- Claim C4: `reclaim_GPIO_9_10` reassigns GPIO9 and GPIO10 (as plain
inputs) exactly once, at the very end of the trace, if and only if vendor
dispatch reported success; on every failing run no pin-mode change for
GPIO9 or GPIO10 occurs at all. -/
theorem pin_reassignment_iff_dispatch_success (d : Device) :
    ((reclaim_GPIO_9_10 d).1 = true →
      ∃ pre, (reclaim_GPIO_9_10 d).2.2 =
          pre ++ [Event.pinModeSet 9 PinMode.input, Event.pinModeSet 10 PinMode.input] ∧
        (pre.all fun e => !e.isPinModeSet910) = true) ∧
    ((reclaim_GPIO_9_10 d).1 = false →
      ((reclaim_GPIO_9_10 d).2.2.all fun e => !e.isPinModeSet910) = true) := by
  by_cases hq : d.quadMode
  · rw [reclaim_quad_shape d hq]
    refine ⟨fun h => Bool.noConfusion h, fun _ => ?_⟩
    by_cases hw : d.wel <;> simp [welPhaseEvents, hw, Event.isPinModeSet910]
  · rw [Bool.not_eq_true] at hq
    rw [reclaim_dispatch_shape d hq]
    dsimp only
    by_cases ha : (spi_flash_vendor_cases d.flashId (afterWelPhase d)).1 = true
    · rw [if_pos ha]
      refine ⟨fun _ => ?_, fun h => by rw [ha] at h; cases h⟩
      refine ⟨Event.readId :: welPhaseEvents d ++ [Event.queryQuadMode false] ++
        (spi_flash_vendor_cases d.flashId (afterWelPhase d)).2.2 ++
        [Event.latchClear], by simp, ?_⟩
      rw [List.all_eq_true]
      intro x hx
      simp only [List.cons_append, List.mem_cons, List.mem_append,
        List.mem_singleton] at hx
      rcases hx with hx | ((hx | hx) | hx) | hx
      · subst hx; rfl
      · simp [welPhase_pin_free d x hx]
      · rcases hx with hx | hx
        · subst hx; rfl
        · cases hx
      · simp [spi_vendor_cases_pin_free_mem _ _ x hx]
      · rcases hx with hx | hx
        · subst hx; rfl
        · cases hx
    · rw [if_neg ha]
      refine ⟨fun h => absurd h ha, fun _ => ?_⟩
      rw [List.all_eq_true]
      intro x hx
      simp only [List.append_nil, List.cons_append, List.mem_cons, List.mem_append,
        List.mem_singleton] at hx
      rcases hx with hx | ((hx | hx) | hx) | hx
      · subst hx; rfl
      · simp [welPhase_pin_free d x hx]
      · rcases hx with hx | hx
        · subst hx; rfl
        · cases hx
      · simp [spi_vendor_cases_pin_free_mem _ _ x hx]
      · rcases hx with hx | hx
        · subst hx; rfl
        · cases hx

/-- Witness for C4: a successful run reassigns both pins at the end, and a
failing (quad-mode) run performs no GPIO9/GPIO10 pin-mode change. -/
theorem pin_reassignment_iff_dispatch_success_witness :
    (∃ pre, (reclaim_GPIO_9_10 devDefaultReject).2.2 =
        pre ++ [Event.pinModeSet 9 PinMode.input, Event.pinModeSet 10 PinMode.input] ∧
      (pre.all fun e => !e.isPinModeSet910) = true) ∧
    ((reclaim_GPIO_9_10 devQuadActive).2.2.all fun e => !e.isPinModeSet910) = true :=
  ⟨(pin_reassignment_iff_dispatch_success devDefaultReject).1 (by decide),
   (pin_reassignment_iff_dispatch_success devQuadActive).2 (by decide)⟩

/-- Claim C5: on every run that reaches vendor dispatch (quad mode off), the
final device state has the write-enable latch clear; when the latch was set
at entry it is cleared (trace position 2) before any other operation, hence
before any write; and the latch-clear is issued again unconditionally right
after the dispatch events, before any pin reassignment, whether the dispatch
succeeded or not. -/
theorem wel_latch_cleared_on_dispatch_runs (d : Device) (h : d.quadMode = false) :
    (reclaim_GPIO_9_10 d).2.1.wel = false ∧
    (d.wel = true → (reclaim_GPIO_9_10 d).2.2.take 3 =
        [Event.readId, Event.queryWEL true, Event.latchClear]) ∧
    (reclaim_GPIO_9_10 d).2.2 =
      Event.readId :: welPhaseEvents d ++ [Event.queryQuadMode false] ++
        (spi_flash_vendor_cases d.flashId (afterWelPhase d)).2.2 ++
        [Event.latchClear] ++
        (if (spi_flash_vendor_cases d.flashId (afterWelPhase d)).1 then
          [Event.pinModeSet 9 PinMode.input, Event.pinModeSet 10 PinMode.input]
         else []) := by
  rw [reclaim_dispatch_shape d h]
  dsimp only
  refine ⟨rfl, fun hw => ?_, rfl⟩
  simp [welPhaseEvents, hw]

/-- Witness for C5 at a concrete device whose latch is stuck at entry. -/
theorem wel_latch_cleared_on_dispatch_runs_witness :
    (reclaim_GPIO_9_10 devWelSet).2.1.wel = false ∧
    (reclaim_GPIO_9_10 devWelSet).2.2.take 3 =
      [Event.readId, Event.queryWEL true, Event.latchClear] :=
  ⟨(wel_latch_cleared_on_dispatch_runs devWelSet (by decide)).1,
   (wel_latch_cleared_on_dispatch_runs devWelSet (by decide)).2.1 (by decide)⟩

/-- Claim C1: for every VendorID with no matching vendor case, the default
dispatch path runs the 16-bit combined S9 write first and retries with the
8-bit SR2 write exactly when the 16-bit attempt's write-back verification
failed; and on any device rejecting all 16-bit writes the final outcome is
SR2 bit 1 set with the function returning true. -/
theorem default_path_16bit_then_8bit_fallback (d : Device) (_id : Nat)
    (hu : 0xFF &&& _id ∉ [SPI_FLASH_VENDOR_GIGADEVICE, SPI_FLASH_VENDOR_MYSTERY_D8,
      SPI_FLASH_VENDOR_XMC, SPI_FLASH_VENDOR_PMC, SPI_FLASH_VENDOR_MACRONIX,
      SPI_FLASH_VENDOR_EON]) :
    ((set_QE_bit__16_bit_sr1_write volatile_bit d).1 = true →
      __spi_flash_vendor_cases _id d = set_QE_bit__16_bit_sr1_write volatile_bit d) ∧
    ((set_QE_bit__16_bit_sr1_write volatile_bit d).1 = false →
      __spi_flash_vendor_cases _id d =
        ((set_QE_bit__8_bit_sr2_write volatile_bit
            (set_QE_bit__16_bit_sr1_write volatile_bit d).2.1).1,
         (set_QE_bit__8_bit_sr2_write volatile_bit
            (set_QE_bit__16_bit_sr1_write volatile_bit d).2.1).2.1,
         (set_QE_bit__16_bit_sr1_write volatile_bit d).2.2 ++
           (set_QE_bit__8_bit_sr2_write volatile_bit
              (set_QE_bit__16_bit_sr1_write volatile_bit d).2.1).2.2)) ∧
    (d.accept16 = false →
      (__spi_flash_vendor_cases _id d).1 = true ∧
      Nat.testBit (__spi_flash_vendor_cases _id d).2.1.sr2 1 = true) := by
  simp only [List.mem_cons, List.mem_singleton] at hu
  push_neg at hu
  obtain ⟨h1, h2, h3, h4, h5, h6⟩ := hu
  refine ⟨?_, ?_, ?_⟩
  · intro h16
    unfold __spi_flash_vendor_cases
    rw [if_neg h1, if_neg h2, if_neg h3, if_neg h4, if_neg h5, if_neg h6.1, if_pos h16]
  · intro h16
    unfold __spi_flash_vendor_cases
    rw [if_neg h1, if_neg h2, if_neg h3, if_neg h4, if_neg h5, if_neg h6.1,
      if_neg (by simp [h16])]
  · intro hacc
    unfold __spi_flash_vendor_cases
    rw [if_neg h1, if_neg h2, if_neg h3, if_neg h4, if_neg h5, if_neg h6.1]
    by_cases hbit : Nat.testBit d.sr2 1 = true
    · have h16 : (set_QE_bit__16_bit_sr1_write volatile_bit d).1 = true := by
        simp [set_QE_bit__16_bit_sr1_write, hbit]
      rw [if_pos h16]
      exact ⟨h16, by simp [set_QE_bit__16_bit_sr1_write, hbit]⟩
    · have hb2 : Nat.testBit d.sr2 1 = false := by simpa using hbit
      have h16 : (set_QE_bit__16_bit_sr1_write volatile_bit d).1 = false := by
        simp [set_QE_bit__16_bit_sr1_write, hb2, spi0_flash_write_status_register,
          writeSRDevice, hacc]
      rw [if_neg (by simp [h16])]
      constructor
      · simp [set_QE_bit__8_bit_sr2_write, set_QE_bit__16_bit_sr1_write, hb2, hacc,
          spi0_flash_write_status_register, writeSRDevice, testBit_lor_two_mod]
      · simp [set_QE_bit__8_bit_sr2_write, set_QE_bit__16_bit_sr1_write, hb2, hacc,
          spi0_flash_write_status_register, writeSRDevice, testBit_lor_two_mod]

/-- Witness for C1: VendorID 0xFF on a device rejecting all 16-bit writes
ends with SR2 bit 1 set and success. -/
theorem default_path_16bit_then_8bit_fallback_witness :
    (__spi_flash_vendor_cases 0xFF devDefaultReject).1 = true ∧
    Nat.testBit (__spi_flash_vendor_cases 0xFF devDefaultReject).2.1.sr2 1 = true :=
  (default_path_16bit_then_8bit_fallback devDefaultReject 0xFF (by decide)).2.2
    (by decide)

/-- Claim C6: for the XMC family (vendor byte 0x20) the dispatch reads and
backs up SR3 before the SR2 quad-enable write and writes the backed-up value
back afterwards, so the final SR3 equals the entry SR3 (the backup read
always succeeds in this model) even on parts whose SR2 write erases SR3. -/
theorem xmc_sr3_backup_restore (d : Device) (_id : Nat)
    (hv : 0xFF &&& _id = SPI_FLASH_VENDOR_XMC) (h3 : d.sr3 < 256) :
    (__spi_flash_vendor_cases _id d).2.1.sr3 = d.sr3 ∧
    (__spi_flash_vendor_cases _id d).2.2 =
      Event.readSR 3 :: (set_QE_bit__8_bit_sr2_write volatile_bit d).2.2 ++
        [Event.writeSR 3 d.sr3 volatile_bit 8] := by
  have h1 : ¬(0xFF &&& _id = SPI_FLASH_VENDOR_GIGADEVICE) := by rw [hv]; decide
  have h2 : ¬(0xFF &&& _id = SPI_FLASH_VENDOR_MYSTERY_D8) := by rw [hv]; decide
  unfold __spi_flash_vendor_cases
  rw [if_neg h1, if_neg h2, if_pos hv]
  constructor
  · dsimp [spi0_flash_read_status_register_3, spi0_flash_write_status_register_3]
    exact Nat.mod_eq_of_lt h3
  · simp [spi0_flash_read_status_register_3, spi0_flash_write_status_register_3]

/-- Witness for C6 at a concrete XMC device whose SR2 write erases SR3. -/
theorem xmc_sr3_backup_restore_witness :
    (__spi_flash_vendor_cases 0x20 devXmc).2.1.sr3 = devXmc.sr3 :=
  (xmc_sr3_backup_restore devXmc 0x20 (by decide) (by decide)).1

/-- Claim C7: for the S6 families (vendor bytes 0x9D and 0xC2) the dispatch
selects the S6-in-SR1 strategy with non-volatile persistence: every write
issued targets SR1 and is non-volatile; and from SR1 = 0 the run sets SR1 to
0x40 (bit 6) and reports success. -/
theorem s6_families_nonvolatile_sr1 (d : Device) (_id : Nat)
    (hv : 0xFF &&& _id = SPI_FLASH_VENDOR_PMC ∨
      0xFF &&& _id = SPI_FLASH_VENDOR_MACRONIX) :
    __spi_flash_vendor_cases _id d = set_S6_QE_WPDis_bit non_volatile_bit d ∧
    ((__spi_flash_vendor_cases _id d).2.2.all Event.writesOnlySR1NonVolatile) = true ∧
    (d.sr1 = 0 → (__spi_flash_vendor_cases _id d).1 = true ∧
      (__spi_flash_vendor_cases _id d).2.1.sr1 = 0x40) := by
  have heq : __spi_flash_vendor_cases _id d = set_S6_QE_WPDis_bit non_volatile_bit d := by
    rcases hv with hv | hv
    · have h1 : ¬(0xFF &&& _id = SPI_FLASH_VENDOR_GIGADEVICE) := by rw [hv]; decide
      have h2 : ¬(0xFF &&& _id = SPI_FLASH_VENDOR_MYSTERY_D8) := by rw [hv]; decide
      have h3 : ¬(0xFF &&& _id = SPI_FLASH_VENDOR_XMC) := by rw [hv]; decide
      unfold __spi_flash_vendor_cases
      rw [if_neg h1, if_neg h2, if_neg h3, if_pos hv]
    · have h1 : ¬(0xFF &&& _id = SPI_FLASH_VENDOR_GIGADEVICE) := by rw [hv]; decide
      have h2 : ¬(0xFF &&& _id = SPI_FLASH_VENDOR_MYSTERY_D8) := by rw [hv]; decide
      have h3 : ¬(0xFF &&& _id = SPI_FLASH_VENDOR_XMC) := by rw [hv]; decide
      have h4 : ¬(0xFF &&& _id = SPI_FLASH_VENDOR_PMC) := by rw [hv]; decide
      unfold __spi_flash_vendor_cases
      rw [if_neg h1, if_neg h2, if_neg h3, if_neg h4, if_pos hv]
  refine ⟨heq, ?_, fun h0 => ?_⟩
  · rw [heq]
    by_cases hb : Nat.testBit d.sr1 6 = true <;>
      simp [set_S6_QE_WPDis_bit, hb, spi0_flash_write_status_register,
        Event.writesOnlySR1NonVolatile, non_volatile_bit]
  · rw [heq]
    constructor
    · simp [set_S6_QE_WPDis_bit, h0, spi0_flash_write_status_register, writeSRDevice]
      decide
    · simp [set_S6_QE_WPDis_bit, h0, spi0_flash_write_status_register, writeSRDevice]

/-- Witness for C7: VendorID 0xC2 with SR1 = 0 ends with SR1 = 0x40 and
success. -/
theorem s6_families_nonvolatile_sr1_witness :
    (__spi_flash_vendor_cases 0xC2 devMacronix).1 = true ∧
    (__spi_flash_vendor_cases 0xC2 devMacronix).2.1.sr1 = 0x40 :=
  (s6_families_nonvolatile_sr1 devMacronix 0xC2 (Or.inr (by decide))).2.2 (by decide)

/-- A flash whose QE/S9 bit (bit 1 of SR2) is already set. -/
def devQeSet : Device := { devDefaultReject with sr2 := 2 }

/-- The all-zero SFDP header record. -/
def zeroSfdpHdr : SfdpHdr :=
  { signature := 0, rev_minor := 0, rev_major := 0, num_parm_hdrs := 0 }

/-- The all-zero SFDP parameter header record. -/
def zeroSfdpParam : SfdpParam :=
  { rev_minor := 0, rev_major := 0, sz_dw := 0, tbl_ptr := 0 }

/-- An SFDP-less device: header read fails, no parameter table, no heap. -/
def devSfdpBad : SfdpDevice :=
  { hdrReadOk := false, hdr := zeroSfdpHdr, paramReadOk := false,
    param := zeroSfdpParam, mallocOk := false, tblReadOk := false, tbl := [] }

/-- Claim C8: when `test_set_QE` is asked to set a QE bit (S9 or S6) that the
register state already holds set, it returns 1 (success) immediately and its
trace contains no status-register write. -/
theorem qe_already_set_skips_write (d : Device) (qe_pos : Nat) (use16 nv : Bool)
    (h : (qe_pos = 9 ∧ Nat.testBit d.sr2 1 = true) ∨
      (qe_pos = 6 ∧ Nat.testBit d.sr1 6 = true)) :
    (test_set_QE qe_pos use16 nv false d).1 = 1 ∧
    (((test_set_QE qe_pos use16 nv false d).2.2).all fun e => !e.isRegWrite) = true := by
  rcases h with ⟨hq, hbit⟩ | ⟨hq, hbit⟩ <;> subst hq <;>
    simp [test_set_QE, spi0_flash_write_disable, hbit, Event.isRegWrite]

/-- Witness for C8 at a device whose SR2 already has bit 1 set. -/
theorem qe_already_set_skips_write_witness :
    (test_set_QE 9 false false false devQeSet).1 = 1 :=
  (qe_already_set_skips_write devQeSet 9 false false (Or.inl ⟨rfl, by decide⟩)).1

/-- Claim C9: for every valid bit-location argument (9, 6 or 0xFF),
`testOutputGPIO9` drives GPIO9 low as an output, restores it to SPECIAL, and
returns true regardless of the `test_set_QE` outcome; for any other
`qe_pos` it returns false without touching the pins. -/
theorem hold_pin_test_pass_signal (d : Device) (qe_pos : Nat)
    (use16 nv preset : Bool) :
    ((qe_pos = 9 ∨ qe_pos = 6 ∨ qe_pos = 0xFF) →
      (testOutputGPIO9 qe_pos use16 nv preset d).1 = true ∧
      (testOutputGPIO9 qe_pos use16 nv preset d).2.2 =
        (test_set_QE qe_pos use16 nv preset d).2.2 ++
          [Event.pinModeSet 9 PinMode.output, Event.digitalWrite 9 false,
           Event.pinModeSet 9 PinMode.special]) ∧
    ((¬qe_pos = 9 ∧ ¬qe_pos = 6 ∧ ¬qe_pos = 0xFF) →
      (testOutputGPIO9 qe_pos use16 nv preset d).1 = false ∧
      (testOutputGPIO9 qe_pos use16 nv preset d).2.2 = []) := by
  constructor
  · intro hvalid
    have hcond : ¬(¬qe_pos = 9 ∧ ¬qe_pos = 6 ∧ ¬qe_pos = 0xFF) := by
      rcases hvalid with h | h | h <;> simp [h]
    unfold testOutputGPIO9
    rw [if_neg hcond]
    exact ⟨rfl, rfl⟩
  · intro hinvalid
    unfold testOutputGPIO9
    rw [if_pos hinvalid]
    exact ⟨rfl, rfl⟩

/-- Witness for C9: a valid location returns true, an invalid one false. -/
theorem hold_pin_test_pass_signal_witness :
    (testOutputGPIO9 0xFF false false false devDefaultReject).1 = true ∧
    (testOutputGPIO9 7 false false false devDefaultReject).1 = false :=
  ⟨((hold_pin_test_pass_signal devDefaultReject 0xFF false false false).1
      (Or.inr (Or.inr rfl))).1,
   ((hold_pin_test_pass_signal devDefaultReject 7 false false false).2
      (by decide)).1⟩

/-- Claim C10: `get_sfdp_revision` returns the all-zero record whenever the
header read fails or the signature is not 0x50444653; and `get_sfdp_basic`
returns the null pointer whenever its argument is null, the parameter-table
pointer is zero, the allocation fails, or the table read fails. -/
theorem sfdp_error_paths_zero_and_null (dev : SfdpDevice) (argNull : Bool) :
    ((dev.hdrReadOk = false ∨ ¬dev.hdr.signature = 0x50444653) →
      get_sfdp_revision dev = zeroSfdpRevInfo) ∧
    ((argNull = true ∨ (get_sfdp_revision dev).tbl_ptr = 0 ∨
        dev.mallocOk = false ∨ dev.tblReadOk = false) →
      get_sfdp_basic argNull dev = none) := by
  constructor
  · intro h
    have hc : ¬(dev.hdrReadOk = true ∧ dev.hdr.signature = 0x50444653) := by
      rcases h with h | h <;> simp [h]
    unfold get_sfdp_revision
    rw [if_neg hc]
  · intro h
    by_cases ha : argNull = true
    · simp [get_sfdp_basic, ha]
    · have ha2 : argNull = false := by simpa using ha
      rcases h with h | h | h | h
      · exact absurd h ha
      · simp [get_sfdp_basic, ha2, h]
      · by_cases ht : (get_sfdp_revision dev).tbl_ptr = 0
        · simp [get_sfdp_basic, ha2, ht]
        · simp [get_sfdp_basic, ha2, ht, h]
      · by_cases ht : (get_sfdp_revision dev).tbl_ptr = 0
        · simp [get_sfdp_basic, ha2, ht]
        · by_cases hm : dev.mallocOk = true
          · simp [get_sfdp_basic, ha2, ht, hm, h]
          · simp [get_sfdp_basic, ha2, ht, hm]

/-- Witness for C10 at a device whose header read fails and whose table is
absent. -/
theorem sfdp_error_paths_zero_and_null_witness :
    get_sfdp_revision devSfdpBad = zeroSfdpRevInfo ∧
    get_sfdp_basic true devSfdpBad = none :=
  ⟨(sfdp_error_paths_zero_and_null devSfdpBad true).1 (Or.inl (by decide)),
   (sfdp_error_paths_zero_and_null devSfdpBad true).2 (Or.inl rfl)⟩

end SpiFlashUtils
